import Mathlib

/-!
# Verification of the Reporter backend (citizen incident reporting API)

Shallow embedding of the FastAPI/MySQL backend under `backend/app/`.
Database tables are modelled as Lean lists of rows, SQL statements as list
operations, and each route handler as a pure function from the database
state and request data to a response together with the new database state.

Python's exception flow is modelled explicitly: every handler body runs
inside `try: ... except Exception as e: raise HTTPException(500, str(e))`,
and `fastapi.HTTPException` is itself a subclass of `Exception`, so an
`HTTPException(400/404/401)` raised inside the body is caught by the broad
handler and resurfaces as a 500 whose detail is `str(e)` (Starlette renders
`str` of an HTTPException as `"{status_code}: {detail}"`).
-/

namespace Reporter

/-! ## Vote model (`app/routes/vote.py`) -/

/-- `voteType` column: the Pydantic model restricts it to the two literals. -/
inductive VoteType where
  | upvote
  | downvote
deriving DecidableEq, Repr

/-- One row of the `votes` table. -/
structure VoteRow where
  reportID : Nat
  userID : Nat
  voteType : VoteType
deriving DecidableEq, Repr

/-- The string serialization of a vote type, as it appears in SQL
parameters and in response messages. -/
def VoteType.str : VoteType → String
  | .upvote => "upvote"
  | .downvote => "downvote"

/-- `SELECT ... FROM votes WHERE reportID = r AND userID = u`:
the rows of the votes table belonging to one (report, user) pair. -/
def votesFor (votes : List VoteRow) (r u : Nat) : List VoteRow :=
  votes.filter (fun v => v.reportID == r && v.userID == u)

/-- `vote_report` (`app/routes/vote.py`, POST `/{report_id}`): fetch the
existing vote of the pair; on a same-type hit delete the pair's rows, on an
opposite-type hit update the pair's rows to the submitted type, otherwise
insert a fresh row.  Returns the new votes table and the response message. -/
def vote_report (votes : List VoteRow) (report_id user_id : Nat)
    (voteType : VoteType) : List VoteRow × String :=
  match (votes.filter (fun v => v.reportID == report_id && v.userID == user_id)).head? with
  | some existing_vote =>
      if existing_vote.voteType = voteType then
        (votes.filter (fun v => !(v.reportID == report_id && v.userID == user_id)),
         "Vote removed successfully")
      else
        (votes.map (fun v =>
            if v.reportID == report_id && v.userID == user_id then
              { v with voteType := voteType }
            else v),
         "Vote " ++ voteType.str ++ "d successfully")
  | none =>
      (votes ++ [⟨report_id, user_id, voteType⟩],
       "Vote " ++ voteType.str ++ "d successfully")

/-! ## Growth-rate computation
(`app/analytics/system_analytics.py`, `get_system_performance`) -/

/-- One entry appended to `growth_data` by the loop in
`get_system_performance`. -/
structure GrowthEntry where
  period : String
  count : Nat
  prev_period_count : Nat
  growth_percent : ℚ
deriving DecidableEq, Repr

/-- The growth-percentage branch of the loop:
`(current - prev) / prev * 100` when `prev > 0`, else `100` when
`current > 0`, else `0`. -/
def growthPercent (prev_count current_count : Nat) : ℚ :=
  if prev_count > 0 then
    ((current_count : ℚ) - (prev_count : ℚ)) / (prev_count : ℚ) * 100
  else if current_count > 0 then 100 else 0

/-- The loop `for i, current in enumerate(period_results)` building
`growth_data`, with `prev_count = period_results[i-1]['count'] if i > 0
else 0`.  A result row is a (time_period, count) pair. -/
def growthData (period_results : List (String × Nat)) : List GrowthEntry :=
  (List.range period_results.length).map (fun i =>
    let current := period_results.getD i ("", 0)
    let prev_count := if i > 0 then (period_results.getD (i - 1) ("", 0)).2 else 0
    { period := current.1
      count := current.2
      prev_period_count := prev_count
      growth_percent := growthPercent prev_count current.2 })

/-! ## Image fallback resolution
(`app/utils/image_helpers.py`, `get_images_for_report`) -/

/-- One row of the `images` table (the columns the fallback chain reads). -/
structure Image where
  imageID : Nat
  imageURL : String
  reportID : Nat
deriving DecidableEq, Repr

/-- One row of the `reports` table, restricted to the columns the image
queries touch. -/
structure ReportRow where
  reportID : Nat
  categoryID : Nat
deriving DecidableEq, Repr

/-- The slice of the database the image-resolution queries read. -/
structure ImagesDB where
  images : List Image
  reports : List ReportRow
deriving Repr

/-- Does `needle` occur as a contiguous substring of the haystack?  Naive
scan used to model SQL `LIKE '%needle%'`. -/
def likeContains (needle : List Char) : List Char → Bool
  | [] => needle.isEmpty
  | c :: t => needle.isPrefixOf (c :: t) || likeContains needle t

/-- SQL `imageURL LIKE '%default_%'`: the URL contains the substring
`"default_"`. -/
def likeDefault (s : String) : Bool :=
  likeContains "default_".toList s.toList

/-- Stage 1 query: `SELECT * FROM images WHERE reportID = %s AND imageURL
NOT LIKE '%default_%'` — the report's user-uploaded images. -/
def userImages (db : ImagesDB) (report_id : Nat) : List Image :=
  db.images.filter (fun i => i.reportID == report_id && !(likeDefault i.imageURL))

/-- Stage 2 query: the default-labeled images linked to this report. -/
def reportDefaultImages (db : ImagesDB) (report_id : Nat) : List Image :=
  db.images.filter (fun i => i.reportID == report_id && likeDefault i.imageURL)

/-- Stage 3 query: join `images` with `reports`, keep default-labeled
images whose report shares the category of `report_id`'s report,
`LIMIT 1`.  The scalar subquery `SELECT categoryID FROM reports WHERE
reportID = %s` yields NULL when the report does not exist, in which case
the comparison matches no row. -/
def categoryDefaultImages (db : ImagesDB) (report_id : Nat) : List Image :=
  match db.reports.find? (fun r => r.reportID == report_id) with
  | some rep =>
      (db.images.filter (fun i => likeDefault i.imageURL &&
        db.reports.any (fun r =>
          r.reportID == i.reportID && r.categoryID == rep.categoryID))).take 1
  | none => []

/-- Stage 4 query: any default-labeled image at all, `LIMIT 1`. -/
def anyDefaultImages (db : ImagesDB) : List Image :=
  (db.images.filter (fun i => likeDefault i.imageURL)).take 1

/-- `get_images_for_report`: run the four queries in priority order and
return the first stage that produced rows; the final stage's (possibly
empty) rows are returned unconditionally. -/
def get_images_for_report (db : ImagesDB) (report_id : Nat) : List Image :=
  let user_images := userImages db report_id
  if !user_images.isEmpty then user_images
  else
    let default_images := reportDefaultImages db report_id
    if !default_images.isEmpty then default_images
    else
      let category_images := categoryDefaultImages db report_id
      if !category_images.isEmpty then category_images
      else anyDefaultImages db

/-! ## Python exception model

Each route handler's body runs inside
`try: ... except Exception as e: raise HTTPException(500, str(e))`.
`fastapi.HTTPException` subclasses `Exception`, so the broad `except`
also catches the handler's own `HTTPException(400/404/401)` and replaces
it by a 500. -/

/-- An exception raised inside a handler body. -/
inductive PyExc where
  | http (status_code : Nat) (detail : String)
  | typeError (msg : String)
deriving DecidableEq, Repr

/-- `str(e)`: Starlette renders an `HTTPException` as
`"{status_code}: {detail}"`; a `TypeError` renders its message. -/
def PyExc.str : PyExc → String
  | .http s d => toString s ++ ": " ++ d
  | .typeError m => m

/-- The error reply the client receives: HTTP status code and detail. -/
structure ErrorReply where
  status_code : Nat
  detail : String
deriving DecidableEq, Repr

/-- The broad `except Exception` wrapper for a read-only handler:
any exception becomes a 500 whose detail is `fmt (str e)`. -/
def tryExcept500 {α : Type} (fmt : String → String) (body : Except PyExc α) :
    Except ErrorReply α :=
  match body with
  | .ok a => .ok a
  | .error e => .error ⟨500, fmt e.str⟩

/-- The broad `except Exception` wrapper for a state-changing handler.
On an exception `conn.commit()` is never reached, so the database keeps
its prior state. -/
def runRoute {α σ : Type} (fmt : String → String) (db : σ)
    (body : Except PyExc (α × σ)) : Except ErrorReply α × σ :=
  match body with
  | .ok (a, db') => (.ok a, db')
  | .error e => (.error ⟨500, fmt e.str⟩, db)

/-- The HTTP status the client observes (200 for a success payload). -/
def replyStatus {α : Type} : Except ErrorReply α → Nat
  | .ok _ => 200
  | .error e => e.status_code

/-! ## Category routes (`app/routes/category.py`) -/

/-- One row of the `categories` table. -/
structure Category where
  categoryID : Nat
  categoryName : String
  categoryDescription : String
deriving DecidableEq, Repr

/-- Body of `get_category`: `SELECT * FROM categories WHERE categoryID =
%s`, 404 when `fetchone()` returns nothing. -/
def get_categoryBody (cats : List Category) (category_id : Nat) :
    Except PyExc Category :=
  match cats.find? (fun c => c.categoryID == category_id) with
  | some category => .ok category
  | none => .error (.http 404 "Category not found")

/-- `get_category` route: body wrapped in the broad exception handler. -/
def get_category (cats : List Category) (category_id : Nat) :
    Except ErrorReply Category :=
  tryExcept500 id (get_categoryBody cats category_id)

/-- Body of `delete_category`: `DELETE FROM categories WHERE categoryID =
%s`, 404 when `cursor.rowcount == 0`. -/
def delete_categoryBody (cats : List Category) (category_id : Nat) :
    Except PyExc (String × List Category) :=
  let remaining := cats.filter (fun c => !(c.categoryID == category_id))
  let rowcount := cats.length - remaining.length
  if rowcount == 0 then .error (.http 404 "Category not found")
  else .ok ("Category deleted successfully", remaining)

/-- `delete_category` route. -/
def delete_category (cats : List Category) (category_id : Nat) :
    Except ErrorReply String × List Category :=
  runRoute id cats (delete_categoryBody cats category_id)

/-- Body of `update_category`.  The handler opens its cursor with
`conn.cursor()` — without `dictionary=True` — so `fetchone()` yields a
plain tuple, and the subscripts `existing['categoryName']` /
`existing['categoryDescription']` raise `TypeError: tuple indices must be
integers, not str`.  Each subscript is evaluated only when the
corresponding payload field is `None` (Python's conditional expression is
lazy), so a full payload never touches the tuple. -/
def update_categoryBody (cats : List Category) (category_id : Nat)
    (name description : Option String) :
    Except PyExc (String × List Category) := do
  match cats.find? (fun c => c.categoryID == category_id) with
  | none => Except.error (.http 404 "Category not found")
  | some _existing =>
      let new_name ← match name with
        | some n => Except.ok n
        | none => Except.error (.typeError "tuple indices must be integers, not str")
      let new_desc ← match description with
        | some d => Except.ok d
        | none => Except.error (.typeError "tuple indices must be integers, not str")
      Except.ok ("Category updated successfully",
        cats.map (fun c =>
          if c.categoryID == category_id then
            { c with categoryName := new_name, categoryDescription := new_desc }
          else c))

/-- `update_category` route. -/
def update_category (cats : List Category) (category_id : Nat)
    (name description : Option String) :
    Except ErrorReply String × List Category :=
  runRoute id cats (update_categoryBody cats category_id name description)

/-! ## Location routes (`app/routes/location.py`) -/

/-- One row of the `locations` table.  The REAL columns are modelled as
exact rationals: the update logic only moves values, never computes. -/
structure Location where
  locationID : Nat
  latitude : ℚ
  longitude : ℚ
  street : String
  district : String
  city : String
  state : String
  country : String
  postalCode : String
  landmark : Option String
deriving DecidableEq, Repr

/-- The `LocationUpdate` request model: every field optional. -/
structure LocationUpdate where
  latitude : Option ℚ := none
  longitude : Option ℚ := none
  street : Option String := none
  district : Option String := none
  city : Option String := none
  state : Option String := none
  country : Option String := none
  postalCode : Option String := none
  landmark : Option String := none
deriving DecidableEq, Repr

/-- The nine `x = data.x if data.x is not None else existing['x']` lines
of `update_location`: merge the payload over the stored row.  The row's
own `locationID` is untouched (the UPDATE never sets it). -/
def mergeLocation (own : Nat) (existing : Location) (data : LocationUpdate) :
    Location where
  locationID := own
  latitude := data.latitude.getD existing.latitude
  longitude := data.longitude.getD existing.longitude
  street := data.street.getD existing.street
  district := data.district.getD existing.district
  city := data.city.getD existing.city
  state := data.state.getD existing.state
  country := data.country.getD existing.country
  postalCode := data.postalCode.getD existing.postalCode
  landmark := match data.landmark with
    | some v => some v
    | none => existing.landmark

/-- Body of `update_location`: this handler does use a dictionary cursor,
so the merge succeeds; the UPDATE rewrites every row matching the id with
the values merged from the first fetched row. -/
def update_locationBody (locs : List Location) (location_id : Nat)
    (data : LocationUpdate) : Except PyExc (String × List Location) :=
  match locs.find? (fun l => l.locationID == location_id) with
  | none => .error (.http 404 "Location not found")
  | some existing =>
      .ok ("Location updated successfully",
        locs.map (fun l =>
          if l.locationID == location_id then
            mergeLocation l.locationID existing data
          else l))

/-- `update_location` route. -/
def update_location (locs : List Location) (location_id : Nat)
    (data : LocationUpdate) : Except ErrorReply String × List Location :=
  runRoute id locs (update_locationBody locs location_id data)

/-! ## Auth routes (`app/routes/auth.py`, `app/utils/auth.py`) -/

/-- One row of the `users` table. -/
structure UserRow where
  userID : Nat
  username : String
  password : String
  role : String
deriving DecidableEq, Repr

/-- One row of the `user_info` table. -/
structure UserInfoRow where
  userID : Nat
  firstName : String
  middleName : Option String
  lastName : String
  email : String
  contactNumber : String
deriving DecidableEq, Repr

/-- The auth-relevant database state; `nextUserID` models the
AUTO_INCREMENT counter behind `cursor.lastrowid`. -/
structure AuthDB where
  users : List UserRow
  user_info : List UserInfoRow
  nextUserID : Nat
deriving Repr

/-- The validated `RegisterRequest` payload. -/
structure RegisterRequest where
  username : String
  password : String
  firstName : String
  lastName : String
  email : String
  contactNumber : String
  middleName : Option String := none
deriving DecidableEq, Repr

/-- The duplicate check of `register`: `SELECT * FROM users u JOIN
user_info ui ON u.userID = ui.userID WHERE u.username = %s OR ui.email =
%s` returned at least one row. -/
def registerDuplicate (db : AuthDB) (data : RegisterRequest) : Bool :=
  db.users.any (fun u => db.user_info.any (fun ui =>
    ui.userID == u.userID && (u.username == data.username || ui.email == data.email)))

/-- Body of `register`.  `hashpw` stands for
`bcrypt.hashpw(password, bcrypt.gensalt())` (decoded to a string, as the
driver stores it); registration stores the *hash*, never the password. -/
def registerBody (hashpw : String → String) (db : AuthDB) (data : RegisterRequest) :
    Except PyExc ((String × Nat) × AuthDB) :=
  if registerDuplicate db data then
    .error (.http 400 "Username or email already exists")
  else
    let hashed_password := hashpw data.password
    let user_id := db.nextUserID
    .ok (("User registered successfully", user_id),
      { users := db.users ++ [⟨user_id, data.username, hashed_password, "Regular"⟩]
        user_info := db.user_info ++
          [⟨user_id, data.firstName, data.middleName, data.lastName,
            data.email, data.contactNumber⟩]
        nextUserID := user_id + 1 })

/-- `register` route: body in the broad exception wrapper. -/
def register (hashpw : String → String) (db : AuthDB) (data : RegisterRequest) :
    Except ErrorReply (String × Nat) × AuthDB :=
  runRoute id db (registerBody hashpw db data)

/-- `verify_password` (`app/utils/auth.py`): plain equality of the
submitted password with the stored column (bytes are decoded first; no
bcrypt check ever happens here). -/
def verify_password (password stored_password : String) : Bool :=
  password == stored_password

/-- Body of `login`: fetch the first user with the given username and
compare passwords with `verify_password`; 401 on either failure.  The
success payload is (message, id, username, role). -/
def loginBody (db : AuthDB) (username password : String) :
    Except PyExc (String × Nat × String × String) :=
  match db.users.find? (fun u => u.username == username) with
  | none => .error (.http 401 "Invalid username or password")
  | some user =>
      if verify_password password user.password then
        .ok ("Login successful", user.userID, user.username, user.role)
      else
        .error (.http 401 "Invalid username or password")

/-- `login` route: body in the broad exception wrapper (which also
swallows the 401). -/
def login (db : AuthDB) (username password : String) :
    Except ErrorReply (String × Nat × String × String) :=
  tryExcept500 id (loginBody db username password)

/-! ## Report creation (`app/routes/report.py`, `create_report`) -/

/-- One row of the `reports` table (the columns `create_report` writes). -/
structure ReportsRow where
  reportID : Nat
  title : String
  description : String
  categoryID : Nat
  locationID : Nat
  userID : Nat
deriving DecidableEq, Repr

/-- The state `create_report` reads and writes; `nextReportID` models the
AUTO_INCREMENT counter behind `cursor.lastrowid`. -/
structure ReportDB where
  users : List UserRow
  reports : List ReportsRow
  nextReportID : Nat
deriving Repr

/-- Body of `create_report`: verify the supplied user id; on a miss fall
back to the first user with role `'Administrator'`, then to the first
user of the table, and only raise 400 when the table is empty; finally
INSERT the report attributed to whichever id was selected. -/
def create_reportBody (db : ReportDB) (user_id : Nat)
    (title description : String) (categoryID locationID : Nat) :
    Except PyExc ((String × Nat) × ReportDB) :=
  let insertWith : Nat → Except PyExc ((String × Nat) × ReportDB) := fun uid =>
    .ok (("Report created successfully", db.nextReportID),
      { db with
        reports := db.reports ++
          [⟨db.nextReportID, title, description, categoryID, locationID, uid⟩]
        nextReportID := db.nextReportID + 1 })
  match db.users.find? (fun u => u.userID == user_id) with
  | some _ => insertWith user_id
  | none =>
      match db.users.find? (fun u => u.role == "Administrator") with
      | some admin => insertWith admin.userID
      | none =>
          match db.users.head? with
          | some default_user => insertWith default_user.userID
          | none => .error (.http 400 "No valid users found in the system")

/-- `create_report` route: its broad exception handler prefixes the
detail with `"Failed to create report: "`. -/
def create_report (db : ReportDB) (user_id : Nat) (title description : String)
    (categoryID locationID : Nat) : Except ErrorReply (String × Nat) × ReportDB :=
  runRoute (fun s => "Failed to create report: " ++ s) db
    (create_reportBody db user_id title description categoryID locationID)

/-! ## Report search (`app/routes/report.py`, `search_reports`) -/

/-- One row of the joined/aggregated result set the search queries range
over (reports joined to category, location, user, grouped over votes):
one row per report, with its vote aggregate and creation timestamp. -/
structure SearchRow where
  reportID : Nat
  title : String
  description : String
  categoryName : String
  street : String
  city : String
  state : String
  country : String
  createdAt : Nat
  upvotes : Nat
deriving DecidableEq, Repr

/-- The optional query-string filters of `GET /api/report/search`. -/
structure SearchFilters where
  query : Option String := none
  category : Option String := none
  location : Option String := none
  dateFrom : Option Nat := none
  dateTo : Option Nat := none
deriving DecidableEq, Repr

/-- SQL `LIKE '%needle%'` on strings. -/
def likeContainsStr (needle haystack : String) : Bool :=
  likeContains needle.toList haystack.toList

/-- The WHERE clause assembled in `search_reports`: each supplied filter
contributes one conjunct (`LIKE` on title/description, category equality,
`LIKE` over the four location columns, and `createdAt` range bounds). -/
def matchesFilters (f : SearchFilters) (r : SearchRow) : Bool :=
  (match f.query with
   | some q => likeContainsStr q r.title || likeContainsStr q r.description
   | none => true) &&
  (match f.category with
   | some c => r.categoryName == c
   | none => true) &&
  (match f.location with
   | some l => likeContainsStr l r.street || likeContainsStr l r.city ||
       likeContainsStr l r.state || likeContainsStr l r.country
   | none => true) &&
  (match f.dateFrom with
   | some d => decide (d ≤ r.createdAt)
   | none => true) &&
  (match f.dateTo with
   | some d => decide (r.createdAt ≤ d)
   | none => true)

/-- The ORDER BY clause selected from `sortBy`: `createdAt DESC` by
default, `createdAt ASC`, or upvotes with `createdAt` as tie-breaker. -/
def searchLE (sortBy : String) (a b : SearchRow) : Bool :=
  if sortBy == "createdAt_asc" then decide (a.createdAt ≤ b.createdAt)
  else if sortBy == "upvotes_desc" then
    decide (b.upvotes < a.upvotes) ||
      (a.upvotes == b.upvotes && decide (b.createdAt ≤ a.createdAt))
  else if sortBy == "upvotes_asc" then
    decide (a.upvotes < b.upvotes) ||
      (a.upvotes == b.upvotes && decide (a.createdAt ≤ b.createdAt))
  else decide (b.createdAt ≤ a.createdAt)

/-- The `PaginatedReportListResponse` payload. -/
structure SearchResult where
  reports : List SearchRow
  totalPages : Nat
  currentPage : Nat
  totalReports : Nat
deriving DecidableEq, Repr

/-- `search_reports`: count the filtered rows, set
`total_pages = math.ceil(total_records / limit) if total_records > 0 else
1` (the ceiling is `(t + limit - 1) / limit` in exact arithmetic), sort
by the requested order and slice with `LIMIT limit OFFSET
(page - 1) * limit`. -/
def search_reports (rows : List SearchRow) (f : SearchFilters)
    (page limit : Nat) (sortBy : String) : SearchResult :=
  let filtered := rows.filter (matchesFilters f)
  let total_records := filtered.length
  let total_pages := if 0 < total_records then (total_records + limit - 1) / limit else 1
  let sorted := filtered.mergeSort (searchLE sortBy)
  let offset := (page - 1) * limit
  { reports := (sorted.drop offset).take limit
    totalPages := total_pages
    currentPage := page
    totalReports := total_records }

/-! ### Characterization lemmas for `vote_report` -/

/-- When the pair has no row, the handler takes the INSERT branch. -/
lemma vote_report_of_votesFor_nil {votes : List VoteRow} {r u : Nat} (t : VoteType)
    (h : votesFor votes r u = []) :
    (vote_report votes r u t).1 = votes ++ [⟨r, u, t⟩] := by
  unfold votesFor at h
  unfold vote_report
  rw [h]
  rfl

/-- When the pair has a first row `v`, the handler deletes on a same-type
hit and updates on an opposite-type hit. -/
lemma vote_report_of_votesFor_cons {votes : List VoteRow} {r u : Nat} (t : VoteType)
    (v : VoteRow) {vs : List VoteRow} (h : votesFor votes r u = v :: vs) :
    (vote_report votes r u t).1 =
      if v.voteType = t then
        votes.filter (fun w => !(w.reportID == r && w.userID == u))
      else
        votes.map (fun w =>
          if w.reportID == r && w.userID == u then { w with voteType := t } else w) := by
  unfold votesFor at h
  unfold vote_report
  rw [h]
  simp only [List.head?_cons]
  by_cases hv : v.voteType = t <;> simp [hv]

/-- The DELETE statement leaves no row of the deleted pair behind. -/
lemma votesFor_delete_same (votes : List VoteRow) (r u : Nat) :
    votesFor (votes.filter (fun w => !(w.reportID == r && w.userID == u))) r u = [] := by
  unfold votesFor
  simp [List.filter_filter]

/-- The DELETE statement only removes rows: any pair's rows afterwards form
a sublist of its rows before. -/
lemma votesFor_delete_sublist (votes : List VoteRow) (r u r' u' : Nat) :
    List.Sublist
      (votesFor (votes.filter (fun w => !(w.reportID == r && w.userID == u))) r' u')
      (votesFor votes r' u') :=
  List.Sublist.filter _ (List.filter_sublist votes)

/-- The UPDATE statement only rewrites `voteType`, never the key columns,
so per-pair row lists commute with it. -/
lemma votesFor_update_map (votes : List VoteRow) (r u r' u' : Nat) (t : VoteType) :
    votesFor (votes.map (fun w =>
        if w.reportID == r && w.userID == u then { w with voteType := t } else w)) r' u' =
      (votesFor votes r' u').map (fun w =>
        if w.reportID == r && w.userID == u then { w with voteType := t } else w) := by
  unfold votesFor
  rw [List.filter_map]
  congr 1
  refine List.filter_congr (fun w _ => ?_)
  by_cases hw : (w.reportID == r && w.userID == u) = true <;>
    simp [Function.comp, hw]

/-- C1: `vote_report` implements the three-state toggle machine per
(report, user) pair: with no existing vote, submitting `t` appends a row
with type `t` (and submitting `t` again afterwards removes it, a net
vote-count delta of 0); with an existing vote of the same type, the pair's
row is deleted; with an existing vote of the opposite type, the pair is
left with exactly one row, of type `t`. -/
theorem vote_report_toggle_machine (votes : List VoteRow) (r u : Nat) (t : VoteType) :
    (votesFor votes r u = [] →
      (vote_report votes r u t).1 = votes ++ [⟨r, u, t⟩] ∧
      votesFor (vote_report (vote_report votes r u t).1 r u t).1 r u = []) ∧
    (∀ v, votesFor votes r u = [v] → v.voteType = t →
      votesFor (vote_report votes r u t).1 r u = []) ∧
    (∀ v, votesFor votes r u = [v] → v.voteType ≠ t →
      votesFor (vote_report votes r u t).1 r u = [⟨r, u, t⟩]) := by
  refine ⟨fun h => ?_, fun v hv ht => ?_, fun v hv ht => ?_⟩
  · have hs := vote_report_of_votesFor_nil t h
    refine ⟨hs, ?_⟩
    rw [hs]
    have h2 : votesFor (votes ++ [⟨r, u, t⟩]) r u = [⟨r, u, t⟩] := by
      unfold votesFor at h ⊢
      rw [List.filter_append, h]
      simp
    rw [vote_report_of_votesFor_cons t ⟨r, u, t⟩ h2, if_pos rfl]
    exact votesFor_delete_same (votes ++ [⟨r, u, t⟩]) r u
  · rw [vote_report_of_votesFor_cons t v hv, if_pos ht]
    exact votesFor_delete_same votes r u
  · rw [vote_report_of_votesFor_cons t v hv, if_neg ht,
      votesFor_update_map votes r u r u t]
    rw [hv]
    have hkey : (v.reportID == r && v.userID == u) = true := by
      have hmem : v ∈ votesFor votes r u := by
        rw [hv]; exact List.mem_singleton_self v
      unfold votesFor at hmem
      exact (List.mem_filter.mp hmem).2
    simp only [Bool.and_eq_true, beq_iff_eq] at hkey
    obtain ⟨v1, v2, v3⟩ := v
    obtain ⟨h1, h2⟩ := hkey
    subst h1
    subst h2
    simp

/-- Witness for C1: concrete runs of the three transitions
(insert from NoVote, toggle-off, and opposite-type update). -/
theorem vote_report_toggle_machine_witness :
    ((vote_report ([] : List VoteRow) 1 2 .upvote).1 = [⟨1, 2, .upvote⟩] ∧
      votesFor (vote_report (vote_report ([] : List VoteRow) 1 2 .upvote).1 1 2 .upvote).1 1 2 = []) ∧
    votesFor (vote_report [⟨1, 2, VoteType.upvote⟩] 1 2 .upvote).1 1 2 = [] ∧
    votesFor (vote_report [⟨1, 2, VoteType.upvote⟩] 1 2 .downvote).1 1 2 = [⟨1, 2, .downvote⟩] := by
  refine ⟨?_, ?_, ?_⟩
  · have h := (vote_report_toggle_machine [] 1 2 .upvote).1 rfl
    simpa using h
  · exact (vote_report_toggle_machine [⟨1, 2, .upvote⟩] 1 2 .upvote).2.1
      ⟨1, 2, .upvote⟩ rfl rfl
  · exact (vote_report_toggle_machine [⟨1, 2, .upvote⟩] 1 2 .downvote).2.2
      ⟨1, 2, .upvote⟩ rfl (by decide)

/-- C2: whatever branch `vote_report` takes, every (report, user) pair that
held at most one vote row before the call holds at most one row after it. -/
theorem vote_report_at_most_one_vote (votes : List VoteRow) (r u : Nat) (t : VoteType)
    (r' u' : Nat) (h : (votesFor votes r' u').length ≤ 1) :
    (votesFor (vote_report votes r u t).1 r' u').length ≤ 1 := by
  rcases hh : votesFor votes r u with _ | ⟨v, vs⟩
  · rw [vote_report_of_votesFor_nil t hh]
    unfold votesFor at hh h ⊢
    rw [List.filter_append, List.length_append]
    by_cases hk : ((r == r') && (u == u')) = true
    · simp only [Bool.and_eq_true, beq_iff_eq] at hk
      obtain ⟨rfl, rfl⟩ := hk
      rw [hh]
      simp
    · have hnew : List.filter
          (fun v => v.reportID == r' && v.userID == u') [(⟨r, u, t⟩ : VoteRow)] = [] := by
        simp [List.filter, hk]
      rw [hnew]
      simpa using h
  · rw [vote_report_of_votesFor_cons t v hh]
    by_cases ht : v.voteType = t
    · rw [if_pos ht]
      exact le_trans (List.Sublist.length_le (votesFor_delete_sublist votes r u r' u')) h
    · rw [if_neg ht, votesFor_update_map votes r u r' u' t]
      simpa using h

/-- Witness for C2: a concrete call preserving the invariant. -/
theorem vote_report_at_most_one_vote_witness :
    (votesFor (vote_report [⟨1, 2, VoteType.upvote⟩] 1 2 .downvote).1 1 2).length ≤ 1 :=
  vote_report_at_most_one_vote [⟨1, 2, VoteType.upvote⟩] 1 2 .downvote 1 2 (by decide)

/-- C4: each bucket's growth percentage is `(current - previous) /
previous * 100` when the previous bucket's count is positive, `100` when
the previous count is 0 and the current count is positive, and `0` when
both are 0 (the first bucket's previous count is taken to be 0); in
particular consecutive counts `[0, 10]` give growth 100, `[10, 0]` give
-100, and `[10, 15]` give 50. -/
theorem growth_percent_formula (results : List (String × Nat)) (i : Nat)
    (h : i < results.length) :
    (((growthData results).getD i ⟨"", 0, 0, 0⟩).prev_period_count =
        if i = 0 then 0 else (results.getD (i - 1) ("", 0)).2) ∧
    (((growthData results).getD i ⟨"", 0, 0, 0⟩).count = (results.getD i ("", 0)).2) ∧
    (((growthData results).getD i ⟨"", 0, 0, 0⟩).growth_percent =
      (let current : Nat := (results.getD i ("", 0)).2
       let prev : Nat := if i = 0 then 0 else (results.getD (i - 1) ("", 0)).2
       if 0 < prev then ((current : ℚ) - (prev : ℚ)) / (prev : ℚ) * 100
       else if 0 < current then 100 else 0)) ∧
    (growthData [("p1", 0), ("p2", 10)]).map (fun e => e.growth_percent) = [0, 100] ∧
    (growthData [("p1", 10), ("p2", 0)]).map (fun e => e.growth_percent) = [100, -100] ∧
    (growthData [("p1", 10), ("p2", 15)]).map (fun e => e.growth_percent) = [100, 50] := by
  have hget : (growthData results).getD i ⟨"", 0, 0, 0⟩ =
      (let current := results.getD i ("", 0)
       let prev_count := if i > 0 then (results.getD (i - 1) ("", 0)).2 else 0
       { period := current.1
         count := current.2
         prev_period_count := prev_count
         growth_percent := growthPercent prev_count current.2 }) := by
    unfold growthData
    rw [List.getD, List.get?_map, List.get?_range h]
    rfl
  have hbranch : (if i > 0 then (results.getD (i - 1) ("", 0)).2 else 0) =
      (if i = 0 then 0 else (results.getD (i - 1) ("", 0)).2) := by
    rcases Nat.eq_zero_or_pos i with h0 | h0
    · simp [h0]
    · simp [h0, Nat.pos_iff_ne_zero.mp h0]
  refine ⟨?_, ?_, ?_,
    by norm_num [growthData, growthPercent, List.range_succ],
    by norm_num [growthData, growthPercent, List.range_succ],
    by norm_num [growthData, growthPercent, List.range_succ]⟩
  · rw [hget]
    exact hbranch
  · rw [hget]
  · rw [hget]
    simp only [growthPercent, hbranch]

/-- Witness for C4: the formula evaluated on the concrete bucket list
`[10, 15]` at index 1. -/
theorem growth_percent_formula_witness :
    ((growthData [("p1", 10), ("p2", 15)]).getD 1 ⟨"", 0, 0, 0⟩).growth_percent =
      ((15 : ℚ) - 10) / 10 * 100 := by
  have h := (growth_percent_formula [("p1", 10), ("p2", 15)] 1 (by decide)).2.2.1
  simpa using h

/-- C3: `get_images_for_report` returns the first non-empty list in the
priority chain user images → report-linked defaults → category default →
any default; a report whose only images are default-labeled contributes
none of them to the user-image stage; and with no images anywhere the
result is the empty list. -/
theorem get_images_priority_chain (db : ImagesDB) (report_id : Nat) :
    (get_images_for_report db report_id =
      if userImages db report_id ≠ [] then userImages db report_id
      else if reportDefaultImages db report_id ≠ [] then reportDefaultImages db report_id
      else if categoryDefaultImages db report_id ≠ [] then categoryDefaultImages db report_id
      else anyDefaultImages db) ∧
    ((∀ i ∈ db.images, i.reportID = report_id → likeDefault i.imageURL = true) →
      userImages db report_id = []) ∧
    (db.images = [] → get_images_for_report db report_id = []) := by
  refine ⟨?_, ?_, ?_⟩
  · unfold get_images_for_report
    by_cases h1 : userImages db report_id = [] <;>
      by_cases h2 : reportDefaultImages db report_id = [] <;>
        by_cases h3 : categoryDefaultImages db report_id = [] <;>
          simp [h1, h2, h3]
  · intro h
    unfold userImages
    rw [List.filter_eq_nil_iff]
    intro i hi
    by_cases hr : i.reportID = report_id
    · simp [hr, h i hi hr]
    · simp [hr]
  · intro h
    unfold get_images_for_report userImages reportDefaultImages
      categoryDefaultImages anyDefaultImages
    rw [h]
    cases hf : db.reports.find? (fun r => r.reportID == report_id) <;> simp [hf]

/-- Witness for C3: a database with no images at all yields the empty
list. -/
theorem get_images_priority_chain_witness :
    get_images_for_report ⟨[], [⟨1, 7⟩]⟩ 1 = [] :=
  (get_images_priority_chain ⟨[], [⟨1, 7⟩]⟩ 1).2.2 rfl

/-- C7 (code bug): a `get_category` on an id absent from the table — in
particular after a successful `delete_category` of that id — does not
reach the client as a 404: the handler's own `HTTPException(404)` is
caught by its broad `except Exception` and re-raised as a 500 whose
detail is `"404: Category not found"`. -/
theorem category_not_found_returns_500 (cats : List Category) (category_id : Nat) :
    (cats.find? (fun c => c.categoryID == category_id) = none →
      get_category cats category_id = Except.error ⟨500, "404: Category not found"⟩) ∧
    (∀ msg cats', delete_category cats category_id = (Except.ok msg, cats') →
      get_category cats' category_id = Except.error ⟨500, "404: Category not found"⟩) := by
  constructor
  · intro h
    unfold get_category tryExcept500 get_categoryBody
    rw [h]
    rfl
  · intro msg cats' h
    simp only [delete_category, runRoute, delete_categoryBody] at h
    rcases hc : (cats.length -
        (cats.filter (fun c => !(c.categoryID == category_id))).length == 0) with _ | _
    · rw [hc] at h
      simp only [Bool.false_eq_true, if_false] at h
      have hcats' : cats' = cats.filter (fun c => !(c.categoryID == category_id)) := by
        have h2 := congrArg Prod.snd h
        simpa using h2.symm
      subst hcats'
      have hnone : (cats.filter (fun c => !(c.categoryID == category_id))).find?
          (fun c => c.categoryID == category_id) = none := by
        rw [List.find?_eq_none]
        intro x hx
        have hx2 := (List.mem_filter.mp hx).2
        simp only [Bool.not_eq_true'] at hx2
        simp [hx2]
      unfold get_category tryExcept500 get_categoryBody
      rw [hnone]
      rfl
    · rw [hc] at h
      simp at h

/-- Witness for C7: deleting category 5 and getting it again yields the
500-wrapped not-found reply, as does getting a never-existing id. -/
theorem category_not_found_returns_500_witness :
    get_category ([] : List Category) 9 = Except.error ⟨500, "404: Category not found"⟩ ∧
    get_category (delete_category [⟨5, "Roads", "road issues"⟩] 5).2 5 =
      Except.error ⟨500, "404: Category not found"⟩ := by
  constructor
  · exact (category_not_found_returns_500 [] 9).1 rfl
  · exact (category_not_found_returns_500 [⟨5, "Roads", "road issues"⟩] 5).2
      "Category deleted successfully" [] rfl

/-- C8 (code bug): a partial update of an existing *category* does not
succeed: because the handler's cursor returns tuples, the lazy fallback
`existing['categoryName']` raises `TypeError` as soon as one optional
field is omitted, and the route answers 500 leaving the table unchanged.
The *location* handler uses a dictionary cursor and behaves as specified:
a partial payload succeeds and every unspecified field keeps its stored
value. -/
theorem partial_update_category_crashes_location_merges
    (cats : List Category) (category_id : Nat) (v : String) (ex : Category)
    (hex : cats.find? (fun c => c.categoryID == category_id) = some ex)
    (locs : List Location) (location_id : Nat) (data : LocationUpdate) (ex' : Location)
    (hex' : locs.find? (fun l => l.locationID == location_id) = some ex') :
    ((update_category cats category_id (some v) none).1 =
        Except.error ⟨500, "tuple indices must be integers, not str"⟩ ∧
      (update_category cats category_id (some v) none).2 = cats) ∧
    ((update_location locs location_id data).1 =
        Except.ok "Location updated successfully" ∧
      (update_location locs location_id data).2 = locs.map (fun l =>
        if l.locationID == location_id then mergeLocation l.locationID ex' data
        else l)) ∧
    ((data.latitude = none → (mergeLocation location_id ex' data).latitude = ex'.latitude) ∧
     (data.longitude = none → (mergeLocation location_id ex' data).longitude = ex'.longitude) ∧
     (data.street = none → (mergeLocation location_id ex' data).street = ex'.street) ∧
     (data.district = none → (mergeLocation location_id ex' data).district = ex'.district) ∧
     (data.city = none → (mergeLocation location_id ex' data).city = ex'.city) ∧
     (data.state = none → (mergeLocation location_id ex' data).state = ex'.state) ∧
     (data.country = none → (mergeLocation location_id ex' data).country = ex'.country) ∧
     (data.postalCode = none → (mergeLocation location_id ex' data).postalCode = ex'.postalCode) ∧
     (data.landmark = none → (mergeLocation location_id ex' data).landmark = ex'.landmark)) := by
  refine ⟨?_, ?_, ?_⟩
  · unfold update_category runRoute update_categoryBody
    rw [hex]
    exact ⟨rfl, rfl⟩
  · unfold update_location runRoute update_locationBody
    rw [hex']
    exact ⟨rfl, rfl⟩
  · refine ⟨fun h => ?_, fun h => ?_, fun h => ?_, fun h => ?_, fun h => ?_,
      fun h => ?_, fun h => ?_, fun h => ?_, fun h => ?_⟩ <;>
      simp [mergeLocation, h]

/-- Witness for C8: a concrete category whose partial update crashes with
the tuple-subscript `TypeError`, and a concrete location whose partial
update keeps the omitted `city` column. -/
theorem partial_update_category_crashes_location_merges_witness :
    (update_category [⟨1, "Roads", "road issues"⟩] 1 (some "Streets") none).1 =
      Except.error ⟨500, "tuple indices must be integers, not str"⟩ ∧
    (update_location [⟨1, 10, 20, "Main", "D", "Pune", "MH", "IN", "411", none⟩] 1
        { street := some "FC Road" }).2 =
      [⟨1, 10, 20, "FC Road", "D", "Pune", "MH", "IN", "411", none⟩] := by
  have h := partial_update_category_crashes_location_merges
    [⟨1, "Roads", "road issues"⟩] 1 "Streets" ⟨1, "Roads", "road issues"⟩ rfl
    [⟨1, 10, 20, "Main", "D", "Pune", "MH", "IN", "411", none⟩] 1
    { street := some "FC Road" } ⟨1, 10, 20, "Main", "D", "Pune", "MH", "IN", "411", none⟩ rfl
  refine ⟨h.1.1, ?_⟩
  rw [h.2.1.2]
  rfl

/-- C6 (code bug): when the username or email already exists, `register`
inserts nothing into `users` or `user_info` — the existence check fails
the request before any INSERT — but the client does not get the 400 of
the spec: the handler's own `HTTPException(400)` is caught by the broad
`except Exception` and resurfaces as a 500 with detail
`"400: Username or email already exists"`. -/
theorem register_duplicate_rejected_before_insert (hashpw : String → String)
    (db : AuthDB) (data : RegisterRequest)
    (hdup : registerDuplicate db data = true) :
    (register hashpw db data).1 =
      Except.error ⟨500, "400: Username or email already exists"⟩ ∧
    (register hashpw db data).2 = db ∧
    replyStatus (register hashpw db data).1 = 500 := by
  unfold register runRoute registerBody
  rw [hdup]
  exact ⟨rfl, rfl, rfl⟩

/-- Witness for C6: registering a second "alice" leaves the tables
untouched and yields the 500-wrapped duplicate error. -/
theorem register_duplicate_rejected_before_insert_witness :
    (register (fun p => p)
        ⟨[⟨1, "alice", "pw", "Regular"⟩],
         [⟨1, "A", none, "L", "a@x.com", "1234567890"⟩], 2⟩
        ⟨"alice", "secret123", "A", "L", "b@y.com", "0987654321", none⟩).1 =
      Except.error ⟨500, "400: Username or email already exists"⟩ ∧
    (register (fun p => p)
        ⟨[⟨1, "alice", "pw", "Regular"⟩],
         [⟨1, "A", none, "L", "a@x.com", "1234567890"⟩], 2⟩
        ⟨"alice", "secret123", "A", "L", "b@y.com", "0987654321", none⟩).2 =
      ⟨[⟨1, "alice", "pw", "Regular"⟩],
       [⟨1, "A", none, "L", "a@x.com", "1234567890"⟩], 2⟩ := by
  have h := register_duplicate_rejected_before_insert (fun p => p)
    ⟨[⟨1, "alice", "pw", "Regular"⟩],
     [⟨1, "A", none, "L", "a@x.com", "1234567890"⟩], 2⟩
    ⟨"alice", "secret123", "A", "L", "b@y.com", "0987654321", none⟩ rfl
  exact ⟨h.1, h.2.1⟩

/-- C9 (code bug): the register/login round-trip fails.  `register`
stores `bcrypt.hashpw(password, gensalt())` — whose output always starts
with the modular-crypt prefix `"$2b$"` — while `verify_password` at login
compares the submitted password for *string equality* with the stored
hash.  For any password that does not itself start with `"$2b$"`, logging
in right after registering yields the 401 path (surfaced as a 500 by the
broad exception handler), never a success. -/
theorem register_then_login_fails (hashpw : String → String)
    (hfmt : ∀ p, ("$2b$".toList.isPrefixOf (hashpw p).toList) = true)
    (db : AuthDB) (data : RegisterRequest)
    (hdup : registerDuplicate db data = false)
    (hfree : ∀ u ∈ db.users, (u.username == data.username) = false)
    (hpw : ("$2b$".toList.isPrefixOf data.password.toList) = false) :
    login (register hashpw db data).2 data.username data.password =
      Except.error ⟨500, "401: Invalid username or password"⟩ := by
  have husers : (register hashpw db data).2.users =
      db.users ++ [⟨db.nextUserID, data.username, hashpw data.password, "Regular"⟩] := by
    unfold register runRoute registerBody
    rw [hdup]
    rfl
  have hne : (data.password == hashpw data.password) = false := by
    rcases hb : data.password == hashpw data.password with _ | _
    · rfl
    · exfalso
      have heq : data.password = hashpw data.password := eq_of_beq hb
      rw [heq, hfmt data.password] at hpw
      exact Bool.noConfusion hpw
  have hnone : db.users.find? (fun u => u.username == data.username) = none :=
    List.find?_eq_none.mpr (fun u hu => by simp [hfree u hu])
  have hsingle : [(⟨db.nextUserID, data.username, hashpw data.password,
        "Regular"⟩ : UserRow)].find? (fun u => u.username == data.username) =
      some ⟨db.nextUserID, data.username, hashpw data.password, "Regular"⟩ := by
    simp [List.find?]
  have hbody : loginBody (register hashpw db data).2 data.username data.password =
      Except.error (.http 401 "Invalid username or password") := by
    unfold loginBody verify_password
    rw [husers, List.find?_append, hnone, Option.none_or, hsingle]
    simp [hne]
  unfold login tryExcept500
  rw [hbody]
  rfl

/-- Witness for C9: a concrete bcrypt-shaped hash function, an empty
database, and the register("alice","secret123") → login round trip
ending in the wrapped 401. -/
theorem register_then_login_fails_witness :
    login (register (fun _ => "$2b$12$N9qo8uLOickgx2ZMRZoMye")
        ⟨[], [], 1⟩ ⟨"alice", "secret123", "A", "L", "a@x.com", "1234567890", none⟩).2
      "alice" "secret123" =
      Except.error ⟨500, "401: Invalid username or password"⟩ :=
  register_then_login_fails (fun _ => "$2b$12$N9qo8uLOickgx2ZMRZoMye")
    (fun _ => show "$2b$".toList.isPrefixOf "$2b$12$N9qo8uLOickgx2ZMRZoMye".toList = true
      by decide) ⟨[], [], 1⟩
    ⟨"alice", "secret123", "A", "L", "a@x.com", "1234567890", none⟩
    rfl (fun u hu => absurd hu (List.not_mem_nil u)) rfl

/-- C10 counterexample: with an empty `users` table the failure reply has
status 500, not 400 — the handler's `HTTPException(400)` is caught by its
own broad `except` and re-raised as
`HTTPException(500, "Failed to create report: " + str(e))`. -/
theorem create_report_no_users_counterexample :
    (create_report ⟨[], [], 1⟩ 42 "pothole" "deep pothole" 1 1).1 =
      Except.error
        ⟨500, "Failed to create report: 400: No valid users found in the system"⟩ ∧
    replyStatus (create_report ⟨[], [], 1⟩ 42 "pothole" "deep pothole" 1 1).1 ≠ 400 := by
  refine ⟨rfl, fun h => ?_⟩
  have h5 : replyStatus (create_report ⟨[], [], 1⟩ 42 "pothole" "deep pothole" 1 1).1 =
      500 := rfl
  omega

/-- C10 (amended): a create-report request whose `user_id` is unknown is
not rejected: the report is attributed to the first `'Administrator'`
user, or failing that to the first user of the table; only with an empty
users table does the call fail, and that failure surfaces as a 500 (the
handler's own 400 is swallowed by its broad exception handler). -/
theorem create_report_user_fallback (db : ReportDB) (user_id : Nat)
    (title description : String) (categoryID locationID : Nat) :
    ((∃ u, db.users.find? (fun v => v.userID == user_id) = some u) →
      (create_report db user_id title description categoryID locationID).2.reports =
        db.reports ++
          [⟨db.nextReportID, title, description, categoryID, locationID, user_id⟩]) ∧
    (∀ admin, db.users.find? (fun v => v.userID == user_id) = none →
      db.users.find? (fun v => v.role == "Administrator") = some admin →
      (create_report db user_id title description categoryID locationID).2.reports =
        db.reports ++
          [⟨db.nextReportID, title, description, categoryID, locationID, admin.userID⟩]) ∧
    (∀ first, db.users.find? (fun v => v.userID == user_id) = none →
      db.users.find? (fun v => v.role == "Administrator") = none →
      db.users.head? = some first →
      (create_report db user_id title description categoryID locationID).2.reports =
        db.reports ++
          [⟨db.nextReportID, title, description, categoryID, locationID, first.userID⟩]) ∧
    (db.users = [] →
      (create_report db user_id title description categoryID locationID).1 =
        Except.error
          ⟨500, "Failed to create report: 400: No valid users found in the system"⟩ ∧
      (create_report db user_id title description categoryID locationID).2 = db) := by
  refine ⟨fun ⟨u, hu⟩ => ?_, fun admin h1 h2 => ?_, fun first h1 h2 h3 => ?_, fun h => ?_⟩
  · unfold create_report runRoute create_reportBody
    rw [hu]
  · unfold create_report runRoute create_reportBody
    rw [h1, h2]
  · unfold create_report runRoute create_reportBody
    rw [h1, h2, h3]
  · unfold create_report runRoute create_reportBody
    rw [h]
    exact ⟨rfl, rfl⟩

/-- Witness for C10: an unknown user id 42 is silently re-attributed to
the first administrator (id 7). -/
theorem create_report_user_fallback_witness :
    (create_report
        ⟨[⟨3, "bob", "pw", "Regular"⟩, ⟨7, "root", "pw", "Administrator"⟩], [], 5⟩
        42 "pothole" "deep pothole" 1 1).2.reports =
      [⟨5, "pothole", "deep pothole", 1, 1, 7⟩] := by
  have h := (create_report_user_fallback
      ⟨[⟨3, "bob", "pw", "Regular"⟩, ⟨7, "root", "pw", "Administrator"⟩], [], 5⟩
      42 "pothole" "deep pothole" 1 1).2.1
    ⟨7, "root", "pw", "Administrator"⟩ rfl rfl
  simpa using h

/-- C5 counterexample: with no matching report the response carries
`totalPages = 1` while `ceil(totalReports / limit) = ceil(0 / 10) = 0`,
so `totalPages = ceil(totalReports / limit)` fails as stated. -/
theorem search_totalPages_counterexample :
    (search_reports [] {} 1 10 "createdAt_desc").totalPages = 1 ∧
    (search_reports [] {} 1 10 "createdAt_desc").totalReports = 0 ∧
    (search_reports [] {} 1 10 "createdAt_desc").totalPages ≠ (0 + 10 - 1) / 10 := by
  exact ⟨rfl, rfl, by decide⟩

/-- C5 (amended): for page `N ≥ 1` and `1 ≤ limit ≤ 100`, the search
response's `totalPages` is the least page count covering the filtered
rows — `ceil(totalReports / limit)` — whenever at least one report
matches, and `1` (not `0`) when none does; the returned reports are
exactly the items at positions `[(N-1)·limit, N·limit)` of the sorted
filtered set, which is a permutation of the filtered rows. -/
theorem search_pagination (rows : List SearchRow) (f : SearchFilters)
    (page limit : Nat) (sortBy : String) (hp : 1 ≤ page) (hl : 1 ≤ limit)
    (hl100 : limit ≤ 100) :
    (search_reports rows f page limit sortBy).totalReports =
      (rows.filter (matchesFilters f)).length ∧
    ((search_reports rows f page limit sortBy).totalReports = 0 →
      (search_reports rows f page limit sortBy).totalPages = 1) ∧
    (0 < (search_reports rows f page limit sortBy).totalReports →
      (search_reports rows f page limit sortBy).totalReports ≤
        (search_reports rows f page limit sortBy).totalPages * limit ∧
      ((search_reports rows f page limit sortBy).totalPages - 1) * limit <
        (search_reports rows f page limit sortBy).totalReports) ∧
    (∀ j, j < limit →
      (search_reports rows f page limit sortBy).reports.get? j =
        ((rows.filter (matchesFilters f)).mergeSort (searchLE sortBy)).get?
          ((page - 1) * limit + j)) ∧
    (∀ j, limit ≤ j →
      (search_reports rows f page limit sortBy).reports.get? j = none) ∧
    List.Perm ((rows.filter (matchesFilters f)).mergeSort (searchLE sortBy))
      (rows.filter (matchesFilters f)) := by
  refine ⟨rfl, fun h0 => ?_, fun h0 => ?_, fun j hj => ?_, fun j hj => ?_,
    List.mergeSort_perm _ _⟩
  · have h0' : (rows.filter (matchesFilters f)).length = 0 := h0
    unfold search_reports
    simp [h0']
  · have h0' : 0 < (rows.filter (matchesFilters f)).length := h0
    have htp : (search_reports rows f page limit sortBy).totalPages =
        ((rows.filter (matchesFilters f)).length - 1) / limit + 1 := by
      unfold search_reports
      simp only [if_pos h0']
      have hrew : (rows.filter (matchesFilters f)).length + limit - 1 =
          ((rows.filter (matchesFilters f)).length - 1) + limit := by omega
      rw [hrew, Nat.add_div_right _ (by omega)]
    have h1 := Nat.div_add_mod ((rows.filter (matchesFilters f)).length - 1) limit
    have h2 := Nat.mod_lt ((rows.filter (matchesFilters f)).length - 1)
      (show 0 < limit by omega)
    have htr : (search_reports rows f page limit sortBy).totalReports =
        (rows.filter (matchesFilters f)).length := rfl
    rw [htr, htp]
    constructor
    · have e1 : (((rows.filter (matchesFilters f)).length - 1) / limit + 1) * limit =
          limit * (((rows.filter (matchesFilters f)).length - 1) / limit) + limit := by
        ring
      rw [e1]
      omega
    · have e2 : (((rows.filter (matchesFilters f)).length - 1) / limit + 1 - 1) * limit =
          limit * (((rows.filter (matchesFilters f)).length - 1) / limit) := by
        rw [Nat.add_sub_cancel, Nat.mul_comm]
      rw [e2]
      omega
  · have hrep : (search_reports rows f page limit sortBy).reports =
        ((((rows.filter (matchesFilters f)).mergeSort (searchLE sortBy)).drop
          ((page - 1) * limit)).take limit) := rfl
    rw [hrep, List.get?_take hj, List.get?_drop]
  · have hrep : (search_reports rows f page limit sortBy).reports =
        ((((rows.filter (matchesFilters f)).mergeSort (searchLE sortBy)).drop
          ((page - 1) * limit)).take limit) := rfl
    rw [hrep]
    exact List.get?_eq_none.mpr (le_trans (List.length_take_le _ _) hj)

/-- Witness for C5: one matching report, page 1, limit 10 — the ceiling
bound holds and the single page slice starts at position 0. -/
theorem search_pagination_witness :
    (search_reports [⟨1, "t", "d", "c", "s", "ci", "st", "co", 100, 0⟩] {} 1 10
        "createdAt_desc").totalReports ≤
      (search_reports [⟨1, "t", "d", "c", "s", "ci", "st", "co", 100, 0⟩] {} 1 10
        "createdAt_desc").totalPages * 10 := by
  have h := search_pagination [⟨1, "t", "d", "c", "s", "ci", "st", "co", 100, 0⟩] {}
    1 10 "createdAt_desc" (by decide) (by decide) (by decide)
  exact (h.2.2.1 (by decide)).1

end Reporter
